import Mathlib

/-!
Verification of the contact-reconciliation engine of `contacts2notion`
(`src/contacts2notion/models.py` and `src/contacts2notion/notion/sync.py`),
as a shallow embedding in Lean 4.

Conventions of the embedding:
* Python `Optional[str]` becomes `Option String`; Python truthiness of such a
  value (`if x:`) is `pyTruthy` (false exactly on `None` and `""`).
* Python `date` objects become the `Date` triple; the `date(y, m, d)`
  constructor, which raises `ValueError` on an invalid calendar date, becomes
  `pyDate`, returning `none` where the constructor would raise inside a
  `try/except` that maps the error to `None`.
* The two external services (Google People API, Notion API) are abstract
  collaborators; the sync code's calls to them are modelled through a
  `Clients` interface with explicit state passing, and exceptions become
  `Except String`.
-/

namespace C2N

/-- A calendar date triple, as carried by Python `datetime.date` values.
Validity is enforced at construction (`pyDate`), not by the type. -/
structure Date where
  year : Nat
  month : Nat
  day : Nat
deriving DecidableEq, Repr

/-- Gregorian leap-year rule, as used by Python `datetime.date`. -/
def isLeapYear (y : Nat) : Bool :=
  (y % 4 == 0 && y % 100 != 0) || (y % 400 == 0)

/-- Number of days of month `m` in year `y`. -/
def daysInMonth (y m : Nat) : Nat :=
  if m == 2 then (if isLeapYear y then 29 else 28)
  else if m == 4 || m == 6 || m == 9 || m == 11 then 30
  else 31

/-- The validity check performed by the Python `date(year, month, day)`
constructor (`MINYEAR = 1`, `MAXYEAR = 9999`). -/
def dateValid (y m d : Nat) : Bool :=
  1 ≤ y && y ≤ 9999 && 1 ≤ m && m ≤ 12 && 1 ≤ d && d ≤ daysInMonth y m

/-- `date(y, m, d)` wrapped in `try/except ValueError: ... = None`, as in
`Contact.from_google_api`. -/
def pyDate (y m d : Nat) : Option Date :=
  if dateValid y m d then some ⟨y, m, d⟩ else none

/-- Python truthiness of an `Optional[str]`: `None` and `""` are falsy. -/
def pyTruthy : Option String → Bool
  | none => false
  | some s => s ≠ ""

/-- Python truthiness of an optional integer: `None` and `0` are falsy. -/
def pyTruthyNat : Option Nat → Bool
  | none => false
  | some n => n ≠ 0

/-- `Contact` of `models.py`: the unified contact model, with the pydantic
defaults as Lean field defaults.  `last_synced_at` (a datetime in the source)
is modelled at date granularity; nothing in the analysed code reads it. -/
structure Contact where
  google_id : String
  first_name : String
  last_name : String := ""
  company : Option String := none
  title : Option String := none
  department : Option String := none
  primary_email : Option String := none
  secondary_email : Option String := none
  primary_phone : Option String := none
  secondary_phone : Option String := none
  birthday : Option Date := none
  address : Option String := none
  website : Option String := none
  hide_birthday : Bool := false
  tags : List String := []
  notes : Option String := none
  last_contacted : Option Date := none
  last_synced_at : Option Date := none
deriving DecidableEq, Repr

/-- `SyncStats` of `models.py`: per-pass counters and the ordered error
list. -/
structure SyncStats where
  created : Nat := 0
  updated : Nat := 0
  skipped : Nat := 0
  errors : List String := []
deriving DecidableEq, Repr

/-- One gap-fill statement of `ContactSyncer._merge_contacts`:
`if not merged.x and notion_contact.x: merged.x = notion_contact.x`. -/
def fillGap (merged_value notion_value : Option String) : Option String :=
  if !pyTruthy merged_value && pyTruthy notion_value then notion_value
  else merged_value

/-- `ContactSyncer._merge_contacts` (sync.py lines 214-253): start from a copy
of the Google contact, fill each empty field from the Notion contact
(birthday only when the hide flag is off), then force the birthday to `None`
when the Notion contact's `hide_birthday` is set. -/
def mergeContacts (google_contact notion_contact : Contact) : Contact :=
  let merged := google_contact
  let merged := { merged with
    primary_email := fillGap merged.primary_email notion_contact.primary_email
    secondary_email := fillGap merged.secondary_email notion_contact.secondary_email
    primary_phone := fillGap merged.primary_phone notion_contact.primary_phone
    secondary_phone := fillGap merged.secondary_phone notion_contact.secondary_phone
    birthday :=
      if merged.birthday.isNone && notion_contact.birthday.isSome
          && !notion_contact.hide_birthday then
        notion_contact.birthday
      else merged.birthday
    company := fillGap merged.company notion_contact.company
    title := fillGap merged.title notion_contact.title
    department := fillGap merged.department notion_contact.department
    address := fillGap merged.address notion_contact.address
    website := fillGap merged.website notion_contact.website }
  if notion_contact.hide_birthday then { merged with birthday := none } else merged

theorem fillGap_eq (a b : Option String) :
    fillGap a b = if pyTruthy a then a else if pyTruthy b then b else a := by
  unfold fillGap
  cases pyTruthy a <;> cases pyTruthy b <;> simp

theorem fillGap_self (a : Option String) : fillGap a a = a := by
  unfold fillGap
  cases pyTruthy a <;> simp

/-- C1: if the Notion contact's hide-birthday flag is set, the merged record's
birthday is `None`, whatever both input birthdays were. -/
theorem merge_hide_birthday_forces_none (google_contact notion_contact : Contact)
    (h : notion_contact.hide_birthday = true) :
    (mergeContacts google_contact notion_contact).birthday = none := by
  simp [mergeContacts, h]

theorem merge_hide_birthday_forces_none_witness :
    ({ google_id := "people/c1", first_name := "Ann",
       birthday := some ⟨1990, 1, 15⟩ : Contact}).birthday = some ⟨1990, 1, 15⟩ ∧
    ({ google_id := "", first_name := "Ann", hide_birthday := true,
       birthday := some ⟨1991, 2, 16⟩ : Contact}).hide_birthday = true ∧
    (mergeContacts
      { google_id := "people/c1", first_name := "Ann", birthday := some ⟨1990, 1, 15⟩ }
      { google_id := "", first_name := "Ann", hide_birthday := true,
        birthday := some ⟨1991, 2, 16⟩ }).birthday = none :=
  ⟨rfl, rfl,
    merge_hide_birthday_forces_none
      { google_id := "people/c1", first_name := "Ann", birthday := some ⟨1990, 1, 15⟩ }
      { google_id := "", first_name := "Ann", hide_birthday := true,
        birthday := some ⟨1991, 2, 16⟩ } rfl⟩

/-- The merge rule exactly as the specification words it (claim C2): per field,
the remote-side value when non-empty, otherwise the database-side value; for
the birthday, the stated hide-birthday exception.  This definition follows the
spec's words, to be compared against `mergeContacts` from the source. -/
def mergeClaimPerSpec (g n : Contact) : Prop :=
  (mergeContacts g n).primary_email =
    (if pyTruthy g.primary_email then g.primary_email else n.primary_email) ∧
  (mergeContacts g n).secondary_email =
    (if pyTruthy g.secondary_email then g.secondary_email else n.secondary_email) ∧
  (mergeContacts g n).primary_phone =
    (if pyTruthy g.primary_phone then g.primary_phone else n.primary_phone) ∧
  (mergeContacts g n).secondary_phone =
    (if pyTruthy g.secondary_phone then g.secondary_phone else n.secondary_phone) ∧
  (mergeContacts g n).company =
    (if pyTruthy g.company then g.company else n.company) ∧
  (mergeContacts g n).title =
    (if pyTruthy g.title then g.title else n.title) ∧
  (mergeContacts g n).department =
    (if pyTruthy g.department then g.department else n.department) ∧
  (mergeContacts g n).address =
    (if pyTruthy g.address then g.address else n.address) ∧
  (mergeContacts g n).website =
    (if pyTruthy g.website then g.website else n.website) ∧
  (mergeContacts g n).birthday =
    (if n.hide_birthday then none
     else if g.birthday.isSome then g.birthday else n.birthday)

/-- C2 counterexample: with a remote company of `""` (empty but present) and a
database company of `None`, the merge keeps the remote `""` instead of
returning the database value, so the spec's per-field rule fails as stated. -/
theorem merge_spec_rule_counterexample :
    ¬ mergeClaimPerSpec
        { google_id := "people/c1", first_name := "Ann", company := some "" }
        { google_id := "people/c1", first_name := "Ann" } := by
  intro h
  have hc := h.2.2.2.2.1
  simp [mergeContacts, fillGap, pyTruthy] at hc

/-- C2 amended: per field, the remote value wins when non-empty; otherwise the
database value fills the gap when it is itself non-empty; when both sides are
empty, the remote side's (empty) value is kept. -/
theorem merge_remote_wins_db_fills (g n : Contact) :
    (mergeContacts g n).primary_email =
      (if pyTruthy g.primary_email then g.primary_email
       else if pyTruthy n.primary_email then n.primary_email else g.primary_email) ∧
    (mergeContacts g n).secondary_email =
      (if pyTruthy g.secondary_email then g.secondary_email
       else if pyTruthy n.secondary_email then n.secondary_email else g.secondary_email) ∧
    (mergeContacts g n).primary_phone =
      (if pyTruthy g.primary_phone then g.primary_phone
       else if pyTruthy n.primary_phone then n.primary_phone else g.primary_phone) ∧
    (mergeContacts g n).secondary_phone =
      (if pyTruthy g.secondary_phone then g.secondary_phone
       else if pyTruthy n.secondary_phone then n.secondary_phone else g.secondary_phone) ∧
    (mergeContacts g n).company =
      (if pyTruthy g.company then g.company
       else if pyTruthy n.company then n.company else g.company) ∧
    (mergeContacts g n).title =
      (if pyTruthy g.title then g.title
       else if pyTruthy n.title then n.title else g.title) ∧
    (mergeContacts g n).department =
      (if pyTruthy g.department then g.department
       else if pyTruthy n.department then n.department else g.department) ∧
    (mergeContacts g n).address =
      (if pyTruthy g.address then g.address
       else if pyTruthy n.address then n.address else g.address) ∧
    (mergeContacts g n).website =
      (if pyTruthy g.website then g.website
       else if pyTruthy n.website then n.website else g.website) ∧
    (mergeContacts g n).birthday =
      (if n.hide_birthday then none
       else if g.birthday.isSome then g.birthday else n.birthday) := by
  cases hb : n.hide_birthday <;>
    refine ⟨?_, ?_, ?_, ?_, ?_, ?_, ?_, ?_, ?_, ?_⟩ <;>
    simp [mergeContacts, fillGap_eq, hb] <;>
    cases hgb : g.birthday <;> (cases hnb : n.birthday <;> simp)

/-- C3 counterexample: merging a record with itself is not the identity; with
`hide_birthday` set and a non-null birthday, the birthday is cleared. -/
theorem merge_self_not_identity :
    mergeContacts
      { google_id := "people/c1", first_name := "Ann", hide_birthday := true,
        birthday := some ⟨1990, 1, 15⟩ }
      { google_id := "people/c1", first_name := "Ann", hide_birthday := true,
        birthday := some ⟨1990, 1, 15⟩ } ≠
    { google_id := "people/c1", first_name := "Ann", hide_birthday := true,
      birthday := some ⟨1990, 1, 15⟩ } := by
  decide

/-- C3 amended: merging a record with itself returns that record unchanged,
except that the birthday is cleared when the record's own hide-birthday flag
is set (so `merge c c = c` whenever the flag is off or the birthday is null). -/
theorem merge_self_eq_up_to_hidden_birthday (c : Contact) :
    mergeContacts c c = if c.hide_birthday then { c with birthday := none } else c := by
  obtain ⟨gid, fn, ln, co, ti, de, pe, se, pp, sp, bd, ad, we, hb, tg, no, lc, ls⟩ := c
  cases hb <;> cases bd <;> simp [mergeContacts, fillGap_self]

/-- C10: the merge result agrees with the Google-side input on `google_id`,
`first_name`, `last_name`, `hide_birthday`, `tags`, `notes`, `last_contacted`
and `last_synced_at`; only the ten gap-fillable fields can differ. -/
theorem merge_preserves_google_frame (g n : Contact) :
    (mergeContacts g n).google_id = g.google_id ∧
    (mergeContacts g n).first_name = g.first_name ∧
    (mergeContacts g n).last_name = g.last_name ∧
    (mergeContacts g n).hide_birthday = g.hide_birthday ∧
    (mergeContacts g n).tags = g.tags ∧
    (mergeContacts g n).notes = g.notes ∧
    (mergeContacts g n).last_contacted = g.last_contacted ∧
    (mergeContacts g n).last_synced_at = g.last_synced_at := by
  cases hb : n.hide_birthday <;> simp [mergeContacts, hb]

/-! ## The Google People API person structures -/

/-- One element of `person["names"]` as received from the API (sub-keys may be
absent). -/
structure GApiName where
  givenName : Option String := none
  familyName : Option String := none
deriving DecidableEq, Repr

/-- One element of `emailAddresses` / `phoneNumbers` / `urls` as received from
the API; `from_google_api` only reads the `value` key. -/
structure GApiValue where
  value : Option String := none
deriving DecidableEq, Repr

/-- The `date` object of a received birthday (`year`/`month`/`day` each
possibly absent). -/
structure GApiDate where
  year : Option Nat := none
  month : Option Nat := none
  day : Option Nat := none
deriving DecidableEq, Repr

/-- One element of `person["birthdays"]`; `bd.get("date", {})` defaults to an
empty object. -/
structure GApiBirthday where
  date : Option GApiDate := none
deriving DecidableEq, Repr

/-- One element of `person["organizations"]` as received from the API. -/
structure GApiOrg where
  name : Option String := none
  title : Option String := none
  department : Option String := none
deriving DecidableEq, Repr

/-- One element of `person["addresses"]` as received from the API. -/
structure GApiAddress where
  formattedValue : Option String := none
deriving DecidableEq, Repr

/-- A person resource as received from the Google People API (the shape read
by `Contact.from_google_api`); repeatable groups default to `[]` via
`person.get(key, [])`. -/
structure GApiPerson where
  resourceName : Option String := none
  names : List GApiName := []
  emailAddresses : List GApiValue := []
  phoneNumbers : List GApiValue := []
  birthdays : List GApiBirthday := []
  organizations : List GApiOrg := []
  addresses : List GApiAddress := []
  urls : List GApiValue := []
deriving DecidableEq, Repr

/-- `Contact.from_google_api` (models.py lines 38-118): lenient parse of a
person resource into the canonical contact; first element of each repeatable
group is primary, second is secondary; a missing year defaults to 1900; an
invalid month/day combination degrades to a `None` birthday. -/
def fromGoogleApi (person : GApiPerson) : Contact :=
  let google_id := person.resourceName.getD ""
  let first_name := match person.names with | [] => "" | n :: _ => n.givenName.getD ""
  let last_name := match person.names with | [] => "" | n :: _ => n.familyName.getD ""
  let primary_email := match person.emailAddresses with | [] => none | e :: _ => e.value
  let secondary_email := match person.emailAddresses with | _ :: e :: _ => e.value | _ => none
  let primary_phone := match person.phoneNumbers with | [] => none | p :: _ => p.value
  let secondary_phone := match person.phoneNumbers with | _ :: p :: _ => p.value | _ => none
  let birthday_obj : Option Date :=
    match person.birthdays with
    | [] => none
    | bd :: _ =>
      let d := bd.date.getD {}
      let year := d.year.getD 1900
      if pyTruthyNat d.month && pyTruthyNat d.day then
        pyDate year (d.month.getD 0) (d.day.getD 0)
      else none
  let company := match person.organizations with | [] => none | o :: _ => o.name
  let title := match person.organizations with | [] => none | o :: _ => o.title
  let department := match person.organizations with | [] => none | o :: _ => o.department
  let address := match person.addresses with | [] => none | a :: _ => a.formattedValue
  let website := match person.urls with | [] => none | u :: _ => u.value
  { google_id := google_id
    first_name := first_name
    last_name := last_name
    company := company
    title := title
    department := department
    primary_email := primary_email
    secondary_email := secondary_email
    primary_phone := primary_phone
    secondary_phone := secondary_phone
    birthday := birthday_obj
    address := address
    website := website
    hide_birthday := false
    tags := []
    notes := none
    last_contacted := none }

/-- One element of the serialized `names` group (`to_google_person`). -/
structure GName where
  givenName : String
  familyName : String
deriving DecidableEq, Repr

/-- One element of the serialized `emailAddresses` / `phoneNumbers` / `urls`
groups: a value together with its `type` tag. -/
structure GTypedValue where
  value : String
  type : String
deriving DecidableEq, Repr

/-- The serialized birthday date object (all three components present). -/
structure GDate where
  year : Nat
  month : Nat
  day : Nat
deriving DecidableEq, Repr

/-- One element of the serialized `birthdays` group. -/
structure GBirthday where
  date : GDate
deriving DecidableEq, Repr

/-- One element of the serialized `organizations` group. -/
structure GOrg where
  name : String
  title : String
  department : String
deriving DecidableEq, Repr

/-- One element of the serialized `addresses` group. -/
structure GAddress where
  formattedValue : String
deriving DecidableEq, Repr

/-- The person dict produced by `Contact.to_google_person`: each field group is
either absent (`none`, the key is omitted) or present with its list value. -/
structure GPerson where
  names : Option (List GName) := none
  emailAddresses : Option (List GTypedValue) := none
  phoneNumbers : Option (List GTypedValue) := none
  birthdays : Option (List GBirthday) := none
  organizations : Option (List GOrg) := none
  addresses : Option (List GAddress) := none
  urls : Option (List GTypedValue) := none
deriving DecidableEq, Repr

/-- `Contact.to_google_person` (models.py lines 278-343): serialize the
canonical contact for the update call, emitting only non-empty groups and
excluding the birthday entirely when `hide_birthday` is set.  The source adds
each group's key to an initially empty dict under its own condition; since the
seven keys are distinct, each conditional insertion is one field here, with
`none` for the omitted key. -/
def toGooglePerson (c : Contact) : GPerson :=
  let emails : List GTypedValue :=
    (if pyTruthy c.primary_email then [⟨c.primary_email.getD "", "work"⟩] else []) ++
    (if pyTruthy c.secondary_email then [⟨c.secondary_email.getD "", "home"⟩] else [])
  let phones : List GTypedValue :=
    (if pyTruthy c.primary_phone then [⟨c.primary_phone.getD "", "mobile"⟩] else []) ++
    (if pyTruthy c.secondary_phone then [⟨c.secondary_phone.getD "", "home"⟩] else [])
  { names := if c.first_name ≠ "" ∨ c.last_name ≠ "" then
        some [⟨c.first_name, c.last_name⟩]
      else none
    emailAddresses := if emails ≠ [] then some emails else none
    phoneNumbers := if phones ≠ [] then some phones else none
    birthdays := (match c.birthday with
      | some bd =>
        if ¬ c.hide_birthday then some [⟨⟨bd.year, bd.month, bd.day⟩⟩] else none
      | none => none)
    organizations := if pyTruthy c.company ∨ pyTruthy c.title ∨ pyTruthy c.department then
        some [⟨c.company.getD "", c.title.getD "", c.department.getD ""⟩]
      else none
    addresses := if pyTruthy c.address then some [⟨c.address.getD ""⟩] else none
    urls := if pyTruthy c.website then some [⟨c.website.getD "", "homepage"⟩] else none }

theorem toGooglePerson_birthdays_none_of_hide (c : Contact)
    (h : c.hide_birthday = true) : (toGooglePerson c).birthdays = none := by
  simp only [toGooglePerson]
  cases c.birthday <;> simp [h]

/-- C5: the serialized person is unaffected by every database-only attribute
(tags, notes, last-contacted, last-synced), and when the suppress-birthday
flag is set the output carries no `birthdays` group at all; the contact's own
`birthday` field is not touched (`to_google_person` is a pure reader). -/
theorem toGooglePerson_excludes_notion_fields (c : Contact) (t : List String)
    (n : Option String) (l s : Option Date) :
    toGooglePerson { c with tags := t, notes := n, last_contacted := l,
                            last_synced_at := s } = toGooglePerson c ∧
    (c.hide_birthday = true → (toGooglePerson c).birthdays = none) :=
  ⟨rfl, toGooglePerson_birthdays_none_of_hide c⟩

theorem toGooglePerson_excludes_notion_fields_witness :
    toGooglePerson { google_id := "people/c1", first_name := "Ann",
                     birthday := some ⟨1990, 1, 15⟩, hide_birthday := true,
                     tags := ["friend"], notes := some "n",
                     last_contacted := some ⟨2024, 1, 1⟩,
                     last_synced_at := some ⟨2024, 1, 2⟩ } =
      toGooglePerson { google_id := "people/c1", first_name := "Ann",
                       birthday := some ⟨1990, 1, 15⟩, hide_birthday := true } ∧
    (toGooglePerson { google_id := "people/c1", first_name := "Ann",
                      birthday := some ⟨1990, 1, 15⟩,
                      hide_birthday := true }).birthdays = none :=
  ⟨(toGooglePerson_excludes_notion_fields
      { google_id := "people/c1", first_name := "Ann",
        birthday := some ⟨1990, 1, 15⟩, hide_birthday := true }
      ["friend"] (some "n") (some ⟨2024, 1, 1⟩) (some ⟨2024, 1, 2⟩)).1,
   (toGooglePerson_excludes_notion_fields
      { google_id := "people/c1", first_name := "Ann",
        birthday := some ⟨1990, 1, 15⟩, hide_birthday := true }
      ["friend"] (some "n") (some ⟨2024, 1, 1⟩) (some ⟨2024, 1, 2⟩)).2 rfl⟩

/-- C9: when the first birthday entry of an incoming person has a
year/month/day combination that is not a valid calendar date (after the
missing-year default of 1900 and the truthiness checks on month and day),
`from_google_api` yields a contact with a `None` birthday; the parse is a
total function, so it cannot raise. -/
theorem fromGoogleApi_invalid_birthday_none (person : GApiPerson)
    (bd : GApiBirthday) (hbd : person.birthdays.head? = some bd)
    (hinv : dateValid ((bd.date.getD {}).year.getD 1900)
        ((bd.date.getD {}).month.getD 0) ((bd.date.getD {}).day.getD 0) = false) :
    (fromGoogleApi person).birthday = none := by
  cases hp : person.birthdays with
  | nil => rw [hp] at hbd; simp at hbd
  | cons b t =>
    rw [hp] at hbd
    simp at hbd
    have hinv2 : dateValid ((b.date.getD {}).year.getD 1900)
        ((b.date.getD {}).month.getD 0) ((b.date.getD {}).day.getD 0) = false := by
      rw [hbd]; exact hinv
    simp only [fromGoogleApi, hp]
    cases hc : (pyTruthyNat (b.date.getD {}).month && pyTruthyNat (b.date.getD {}).day) <;>
      simp [hc, pyDate, hinv2]

/-- A received person whose (yearless) birthday is February 30th. -/
def feb30Birthday : GApiBirthday := { date := some { month := some 2, day := some 30 } }

/-- A received person carrying the malformed birthday `feb30Birthday`. -/
def feb30Person : GApiPerson :=
  { resourceName := some "people/c1", birthdays := [feb30Birthday] }

theorem fromGoogleApi_invalid_birthday_none_witness :
    feb30Person.birthdays.head? = some feb30Birthday ∧
    dateValid ((feb30Birthday.date.getD {}).year.getD 1900)
      ((feb30Birthday.date.getD {}).month.getD 0)
      ((feb30Birthday.date.getD {}).day.getD 0) = false ∧
    (fromGoogleApi feb30Person).birthday = none :=
  ⟨rfl, by decide,
    fromGoogleApi_invalid_birthday_none feb30Person feb30Birthday rfl (by decide)⟩

/-! ## The Notion property bag

The database service's property-bag protocol (spec section 6) is a closed set
of typed property shapes.  A rich-text / title item is written by the core as
`{"text": {"content": v}}` and read back as `{"plain_text": v}`; the service
stores the content and surfaces it as plain text, so both sides of the round
trip are modelled by the single string `v` (modelled from the spec: the
database client that performs this exchange is not part of the analysed
source).  A date property's `{"start": <ISO date>}` payload is modelled by the
date value itself; `isoformat` and the `fromisoformat ∘ replace("Z", ...)`
parse of `from_notion_page` are inverse on date-only strings, so both become
the identity here. -/

/-- A `title` property: list of text items. -/
structure PTitle where
  title : List String
deriving DecidableEq, Repr

/-- A `rich_text` property: list of text items. -/
structure PRich where
  rich_text : List String
deriving DecidableEq, Repr

/-- An `email` property. -/
structure PEmail where
  email : Option String
deriving DecidableEq, Repr

/-- A `phone_number` property. -/
structure PPhone where
  phone_number : Option String
deriving DecidableEq, Repr

/-- A `date` property: `none` is `{"date": null}`, `some d` is
`{"date": {"start": d}}`. -/
structure PDate where
  date : Option Date
deriving DecidableEq, Repr

/-- A `checkbox` property. -/
structure PCheckbox where
  checkbox : Bool
deriving DecidableEq, Repr

/-- A `multi_select` property: list of option names. -/
structure PMulti where
  multi_select : List String
deriving DecidableEq, Repr

/-- A `url` property. -/
structure PUrl where
  url : Option String
deriving DecidableEq, Repr

/-- The full property bag of a contact page, with one field per named property
of the database schema ("First Name", "Last Name", ..., "Google ID",
"Last Synced"). -/
structure NotionProps where
  firstName : PTitle
  lastName : PRich
  company : PRich
  jobTitle : PRich
  department : PRich
  primaryEmail : PEmail
  secondaryEmail : PEmail
  primaryPhone : PPhone
  secondaryPhone : PPhone
  birthday : PDate
  address : PRich
  website : PUrl
  hideBirthday : PCheckbox
  tags : PMulti
  notes : PRich
  lastContacted : PDate
  googleID : PRich
  lastSynced : PDate
deriving DecidableEq, Repr

/-- A property bag whose every property is absent/empty, for building test
pages. -/
def emptyProps : NotionProps :=
  { firstName := ⟨[]⟩, lastName := ⟨[]⟩, company := ⟨[]⟩, jobTitle := ⟨[]⟩
    department := ⟨[]⟩, primaryEmail := ⟨none⟩, secondaryEmail := ⟨none⟩
    primaryPhone := ⟨none⟩, secondaryPhone := ⟨none⟩, birthday := ⟨none⟩
    address := ⟨[]⟩, website := ⟨none⟩, hideBirthday := ⟨false⟩, tags := ⟨[]⟩
    notes := ⟨[]⟩, lastContacted := ⟨none⟩, googleID := ⟨[]⟩, lastSynced := ⟨none⟩ }

/-- `get_title` of `Contact.from_notion_page`: first item's text, default
`""`. -/
def getTitleProp (p : PTitle) : String :=
  match p.title with | [] => "" | s :: _ => s

/-- `get_rich_text` of `Contact.from_notion_page`: first item's text, or
`None` when the list is empty. -/
def getRichTextProp (p : PRich) : Option String :=
  match p.rich_text with | [] => none | s :: _ => some s

/-- Python `x or d` for an optional string `x` and string default `d`. -/
def pyOrStr (v : Option String) (d : String) : String :=
  match v with
  | some s => if s = "" then d else s
  | none => d

/-- `Contact.from_notion_page` (models.py lines 120-200): parse a page's
property bag into the canonical contact.  `last_synced_at` is not read. -/
def fromNotionProps (props : NotionProps) : Contact :=
  { google_id := pyOrStr (getRichTextProp props.googleID) ""
    first_name := if getTitleProp props.firstName = "" then "" else getTitleProp props.firstName
    last_name := pyOrStr (getRichTextProp props.lastName) ""
    company := getRichTextProp props.company
    title := getRichTextProp props.jobTitle
    department := getRichTextProp props.department
    primary_email := props.primaryEmail.email
    secondary_email := props.secondaryEmail.email
    primary_phone := props.primaryPhone.phone_number
    secondary_phone := props.secondaryPhone.phone_number
    birthday := props.birthday.date
    address := getRichTextProp props.address
    website := props.website.url
    hide_birthday := props.hideBirthday.checkbox
    tags := props.tags.multi_select
    notes := getRichTextProp props.notes
    last_contacted := props.lastContacted.date
    last_synced_at := none }

/-- `rich_text` of `Contact.to_notion_properties`: a one-item list when the
value is truthy, else the empty list. -/
def richTextProp (v : Option String) : PRich :=
  if pyTruthy v then ⟨[v.getD ""]⟩ else ⟨[]⟩

/-- `Contact.to_notion_properties` (models.py lines 202-276): serialize the
canonical contact into a full property bag; every property key is always
present.  `today` stands for `datetime.now().date()`, the current processing
time written into "Last Synced" on every call. -/
def toNotionProperties (c : Contact) (today : Date) : NotionProps :=
  { firstName := ⟨[c.first_name]⟩
    lastName := richTextProp (some c.last_name)
    company := richTextProp c.company
    jobTitle := richTextProp c.title
    department := richTextProp c.department
    primaryEmail := ⟨if pyTruthy c.primary_email then c.primary_email else none⟩
    secondaryEmail := ⟨if pyTruthy c.secondary_email then c.secondary_email else none⟩
    primaryPhone := ⟨if pyTruthy c.primary_phone then c.primary_phone else none⟩
    secondaryPhone := ⟨if pyTruthy c.secondary_phone then c.secondary_phone else none⟩
    birthday := ⟨c.birthday⟩
    address := richTextProp c.address
    website := ⟨if pyTruthy c.website then c.website else none⟩
    hideBirthday := ⟨c.hide_birthday⟩
    tags := ⟨c.tags⟩
    notes := richTextProp c.notes
    lastContacted := ⟨c.last_contacted⟩
    googleID := richTextProp (some c.google_id)
    lastSynced := ⟨some today⟩ }

/-! ## The identity index -/

/-- Association-list lookup, standing for Python `dict.get`. -/
def lookupAssoc (l : List (String × α)) (k : String) : Option α :=
  match l with
  | [] => none
  | (k2, v) :: rest => if k2 = k then some v else lookupAssoc rest k

/-- Association-list insert with overwrite, standing for Python
`dict[k] = v` (insertion order preserved, later writes win). -/
def insertAssoc (k : String) (v : α) (l : List (String × α)) : List (String × α) :=
  match l with
  | [] => [(k, v)]
  | (k2, v2) :: rest => if k2 = k then (k, v) :: rest else (k2, v2) :: insertAssoc k v rest

/-- `"".join(c for c in s if c.isdigit())`. -/
def digitsOnly (s : String) : String :=
  String.mk (s.toList.filter Char.isDigit)

/-- ASCII model of Python `str.lower` on one character. -/
def pyCharLower (ch : Char) : Char :=
  if 'A' ≤ ch ∧ ch ≤ 'Z' then Char.ofNat (ch.toNat + 32) else ch

/-- ASCII model of Python `str.lower`. -/
def pyLower (s : String) : String := ⟨s.data.map pyCharLower⟩

/-- Model of Python `str.strip`: drop leading and trailing whitespace. -/
def pyStrip (s : String) : String :=
  ⟨((s.data.dropWhile Char.isWhitespace).reverse.dropWhile Char.isWhitespace).reverse⟩

/-- The four lookup dictionaries of `ContactSyncer`. -/
structure SyncState where
  googleIdIdx : List (String × String)
  emailIdx : List (String × String)
  phoneIdx : List (String × String)
  nameIdx : List (String × String)
deriving DecidableEq, Repr

/-- The empty index state (`ContactSyncer.initialize` resets all four maps). -/
def emptySyncState : SyncState := ⟨[], [], [], []⟩

/-- The per-page body of `ContactSyncer.initialize` (sync.py lines 47-88):
register the page under up to four keys, skipping a key type when its
underlying field is empty. -/
def indexPage (st : SyncState) (page : String × NotionProps) : SyncState :=
  let page_id := page.1
  let props := page.2
  let st :=
    match props.googleID.rich_text with
    | [] => st
    | google_id :: _ =>
      if google_id ≠ "" then
        { st with googleIdIdx := insertAssoc google_id page_id st.googleIdIdx }
      else st
  let st :=
    match props.primaryEmail.email with
    | some primary_email =>
      if primary_email ≠ "" then
        { st with emailIdx := insertAssoc (pyLower primary_email) page_id st.emailIdx }
      else st
    | none => st
  let st :=
    match props.primaryPhone.phone_number with
    | some primary_phone =>
      if primary_phone ≠ "" then
        let normalized_phone := digitsOnly primary_phone
        if normalized_phone ≠ "" then
          { st with phoneIdx := insertAssoc normalized_phone page_id st.phoneIdx }
        else st
      else st
    | none => st
  let first_name := match props.firstName.title with | [] => "" | s :: _ => s
  let last_name := match props.lastName.rich_text with | [] => "" | s :: _ => s
  let st :=
    if first_name ≠ "" then
      let name_key := pyStrip (pyLower first_name ++ " " ++ pyLower last_name)
      if name_key ≠ "" then
        { st with nameIdx := insertAssoc name_key page_id st.nameIdx }
      else st
    else st
  st

/-- `ContactSyncer.initialize`: build the four lookup maps fresh from the
existing pages. -/
def buildIndexes (pages : List (String × NotionProps)) : SyncState :=
  pages.foldl indexPage emptySyncState

/-- `ContactSyncer._find_existing_page` (sync.py lines 93-129): match by
Google ID, then primary email (lower-cased), then primary phone
(digit-stripped), then normalized full name; first hit wins. -/
def findExistingPage (st : SyncState) (contact : Contact) : Option String :=
  let by_google_id :=
    if contact.google_id ≠ "" then lookupAssoc st.googleIdIdx contact.google_id
    else none
  match by_google_id with
  | some page_id => some page_id
  | none =>
  let by_email :=
    if pyTruthy contact.primary_email then
      match lookupAssoc st.emailIdx (pyLower (contact.primary_email.getD "")) with
      | some page_id => if page_id ≠ "" then some page_id else none
      | none => none
    else none
  match by_email with
  | some page_id => some page_id
  | none =>
  let by_phone :=
    if pyTruthy contact.primary_phone then
      let normalized := digitsOnly (contact.primary_phone.getD "")
      match lookupAssoc st.phoneIdx normalized with
      | some page_id => if page_id ≠ "" then some page_id else none
      | none => none
    else none
  match by_phone with
  | some page_id => some page_id
  | none =>
  let by_name :=
    if contact.first_name ≠ "" then
      let name_key := pyStrip (pyLower contact.first_name ++ " " ++ pyLower contact.last_name)
      match lookupAssoc st.nameIdx name_key with
      | some page_id => if page_id ≠ "" then some page_id else none
      | none => none
    else none
  match by_name with
  | some page_id => some page_id
  | none => none

/-- C6: once the index maps a non-empty identity key to a page, looking up any
incoming contact carrying that key returns exactly that page, regardless of
every other field of the contact. -/
theorem findExistingPage_by_google_id (pages : List (String × NotionProps))
    (contact : Contact) (page_id : String)
    (hkey : contact.google_id ≠ "")
    (hidx : lookupAssoc (buildIndexes pages).googleIdIdx contact.google_id = some page_id) :
    findExistingPage (buildIndexes pages) contact = some page_id := by
  unfold findExistingPage
  simp [hkey, hidx]

/-- A database page registered under identity key "people/c6", with fields
unrelated to the incoming contact below. -/
def c6Props : NotionProps :=
  { emptyProps with
    googleID := ⟨["people/c6"]⟩
    firstName := ⟨["Old"]⟩
    primaryEmail := ⟨some "old@x.com"⟩ }

/-- An incoming contact carrying identity key "people/c6" but differing in
every other matchable field. -/
def c6Contact : Contact :=
  { google_id := "people/c6", first_name := "New", last_name := "Name",
    primary_email := some "new@y.com", primary_phone := some "+1 555" }

theorem findExistingPage_by_google_id_witness :
    c6Contact.google_id ≠ "" ∧
    lookupAssoc (buildIndexes [("page-7", c6Props)]).googleIdIdx c6Contact.google_id
      = some "page-7" ∧
    findExistingPage (buildIndexes [("page-7", c6Props)]) c6Contact = some "page-7" :=
  ⟨by decide, by decide,
    findExistingPage_by_google_id [("page-7", c6Props)] c6Contact "page-7"
      (by decide) (by decide)⟩

/-! ## The sync orchestrator

`ContactSyncer` drives both directional phases against the two collaborator
services.  The collaborators are abstract (spec section 6); the Notion client
implementation in particular is not part of the analysed source, so the
interface below is modelled from the spec: a state type `σ` stands for the
combined external world, reads are pure, writes return the new world, and any
call may fail (`Except String`), standing for a raised exception. -/

/-- One write call issued against either service. -/
inductive WriteOp where
  | notionCreate (page_id : String)
  | notionUpdate (page_id : String)
  | googleUpdate (resource_name : String)
deriving DecidableEq, Repr

/-- Modelled from the spec: the collaborator interface consumed by
`ContactSyncer` (query/get/update/create on the database side; list/get-one/
update on the remote side, the listing already parsed to canonical records as
`GoogleContactsClient.get_contacts` does). -/
structure Clients (σ : Type) where
  notionQueryAll : σ → List (String × NotionProps)
  notionGetPage : σ → String → Except String NotionProps
  notionUpdatePage : σ → String → NotionProps → Except String σ
  notionCreatePage : σ → NotionProps → Except String (σ × String)
  googleGetContacts : σ → List Contact
  googleGetContact : σ → String → Except String GApiPerson
  googleUpdateContact : σ → String → Contact → Except String σ

/-- `ContactSyncer.sync_contact_to_notion` (sync.py lines 131-156): upsert one
contact, updating the lookup indexes; the returned flag is true when a new
page was created. -/
def syncContactToNotion (C : Clients σ) (today : Date) (s : σ) (st : SyncState)
    (contact : Contact) : Except String (σ × SyncState × String × Bool) :=
  let properties := toNotionProperties contact today
  match findExistingPage st contact with
  | some existing_page_id =>
    match C.notionUpdatePage s existing_page_id properties with
    | .error e => .error e
    | .ok s2 =>
      let st :=
        if contact.google_id ≠ "" then
          { st with googleIdIdx :=
              insertAssoc contact.google_id existing_page_id st.googleIdIdx }
        else st
      .ok (s2, st, existing_page_id, false)
  | none =>
    match C.notionCreatePage s properties with
    | .error e => .error e
    | .ok (s2, new_page_id) =>
      let st :=
        if contact.google_id ≠ "" then
          { st with googleIdIdx :=
              insertAssoc contact.google_id new_page_id st.googleIdIdx }
        else st
      let st :=
        if pyTruthy contact.primary_email then
          { st with emailIdx :=
              insertAssoc (pyLower (contact.primary_email.getD "")) new_page_id st.emailIdx }
        else st
      .ok (s2, st, new_page_id, true)

/-- The `try` body of the `sync_from_google` loop (sync.py lines 177-197):
resolve the existing page, copy the Notion-only fields onto the incoming
contact when found, then upsert. -/
def processGoogleContact (C : Clients σ) (today : Date) (s : σ) (st : SyncState)
    (contact : Contact) : Except String (σ × SyncState × String × Bool) :=
  match findExistingPage st contact with
  | some existing_page_id =>
    match C.notionGetPage s existing_page_id with
    | .error e => .error e
    | .ok page =>
      let notion_contact := fromNotionProps page
      let contact := { contact with
        hide_birthday := notion_contact.hide_birthday
        tags := notion_contact.tags
        notes := notion_contact.notes
        last_contacted := notion_contact.last_contacted }
      syncContactToNotion C today s st contact
  | none => syncContactToNotion C today s st contact

/-- One iteration of the `sync_from_google` loop, with its `except` clause
(sync.py lines 202-205): on failure the error string carries the display name
and the pass continues. -/
def syncFromGoogleStep (C : Clients σ) (today : Date)
    (acc : σ × SyncState × SyncStats × List WriteOp) (contact : Contact) :
    σ × SyncState × SyncStats × List WriteOp :=
  let (s, st, stats, ops) := acc
  match processGoogleContact C today s st contact with
  | .ok (s2, st2, page_id, created) =>
    if created then
      (s2, st2, { stats with created := stats.created + 1 },
        ops ++ [WriteOp.notionCreate page_id])
    else
      (s2, st2, { stats with updated := stats.updated + 1 },
        ops ++ [WriteOp.notionUpdate page_id])
  | .error e =>
    (s, st, { stats with errors := stats.errors ++
        ["Failed to sync '" ++ contact.first_name ++ " " ++ contact.last_name
          ++ "': " ++ e] }, ops)

/-- `ContactSyncer.sync_from_google` (sync.py lines 158-212): fetch all Google
contacts once and upsert each into Notion. -/
def syncFromGoogle (C : Clients σ) (today : Date) (s : σ) (st : SyncState) :
    σ × SyncState × SyncStats × List WriteOp :=
  (C.googleGetContacts s).foldl (syncFromGoogleStep C today) (s, st, ⟨0, 0, 0, []⟩, [])

/-- The inner `try` body of the `sync_to_google` loop (sync.py lines 289-309):
fetch the remote person, merge, and update only when the serialized forms
differ; the returned flag is true when an update was issued. -/
def processNotionContact (C : Clients σ) (s : σ) (notion_contact : Contact) :
    Except String (σ × Bool) :=
  match C.googleGetContact s notion_contact.google_id with
  | .error e => .error e
  | .ok google_person =>
    let google_contact := fromGoogleApi google_person
    let merged_contact := mergeContacts google_contact notion_contact
    let google_data := toGooglePerson google_contact
    let merged_data := toGooglePerson merged_contact
    if google_data ≠ merged_data then
      match C.googleUpdateContact s notion_contact.google_id merged_contact with
      | .error e => .error e
      | .ok s2 => .ok (s2, true)
    else .ok (s, false)

/-- One iteration of the `sync_to_google` loop (sync.py lines 278-325): parse
the page, skip it when it has no Google ID, otherwise run the inner body with
its `except` clause appending a named error. -/
def syncToGoogleStep (C : Clients σ) (acc : σ × SyncStats × List WriteOp)
    (page : String × NotionProps) : σ × SyncStats × List WriteOp :=
  let (s, stats, ops) := acc
  let notion_contact := fromNotionProps page.2
  if notion_contact.google_id = "" then
    (s, { stats with skipped := stats.skipped + 1 }, ops)
  else
    match processNotionContact C s notion_contact with
    | .ok (s2, true) =>
      (s2, { stats with updated := stats.updated + 1 },
        ops ++ [WriteOp.googleUpdate notion_contact.google_id])
    | .ok (s2, false) => (s2, stats, ops)
    | .error e =>
      (s, { stats with errors := stats.errors ++
          ["Failed to sync '" ++ notion_contact.first_name ++ " "
            ++ notion_contact.last_name ++ "' to Google: " ++ e] }, ops)

/-- `ContactSyncer.sync_to_google` (sync.py lines 255-332): fetch all database
pages once and push each eligible one through the merge-and-compare path. -/
def syncToGoogle (C : Clients σ) (s : σ) : σ × SyncStats × List WriteOp :=
  (C.notionQueryAll s).foldl (syncToGoogleStep C) (s, ⟨0, 0, 0, []⟩, [])

/-- `ContactSyncer.full_sync` (sync.py lines 334-352): build the indexes, then
Google → Notion, then Notion → Google.  Returns the final world, the two
phases' statistics and the concatenated write log. -/
def fullSync (C : Clients σ) (today : Date) (s : σ) :
    σ × SyncStats × SyncStats × List WriteOp :=
  let st := buildIndexes (C.notionQueryAll s)
  match syncFromGoogle C today s st with
  | (s1, _, google_stats, ops1) =>
    match syncToGoogle C s1 with
    | (s2, notion_stats, ops2) => (s2, google_stats, notion_stats, ops1 ++ ops2)

/-- C7: a database record whose parsed form has an empty identity key only
increments the skipped counter: the world is untouched and no write is
logged, and this holds uniformly in the client, so no remote call can have
contributed to the outcome. -/
theorem syncToGoogle_skips_record_without_google_id {σ : Type} (C : Clients σ)
    (s : σ) (stats : SyncStats) (ops : List WriteOp)
    (page_id : String) (props : NotionProps)
    (h : (fromNotionProps props).google_id = "") :
    syncToGoogleStep C (s, stats, ops) (page_id, props) =
      (s, { stats with skipped := stats.skipped + 1 }, ops) := by
  simp [syncToGoogleStep, h]

/-- A database page with no Google ID (a manual database-only entry). -/
def manualPageProps : NotionProps :=
  { emptyProps with firstName := ⟨["Manual"]⟩, primaryEmail := ⟨some "m@x.com"⟩ }

theorem syncToGoogle_skips_record_without_google_id_witness :
    (fromNotionProps manualPageProps).google_id = "" ∧
    syncToGoogleStep (σ := Unit)
        { notionQueryAll := fun _ => [], notionGetPage := fun _ _ => .error "n/a",
          notionUpdatePage := fun _ _ _ => .error "n/a",
          notionCreatePage := fun _ _ => .error "n/a",
          googleGetContacts := fun _ => [], googleGetContact := fun _ _ => .error "n/a",
          googleUpdateContact := fun _ _ _ => .error "n/a" }
        ((), ⟨0, 0, 0, []⟩, []) ("page-3", manualPageProps) =
      ((), ⟨0, 0, 1, []⟩, []) :=
  ⟨rfl,
    syncToGoogle_skips_record_without_google_id
      { notionQueryAll := fun _ => [], notionGetPage := fun _ _ => .error "n/a",
        notionUpdatePage := fun _ _ _ => .error "n/a",
        notionCreatePage := fun _ _ => .error "n/a",
        googleGetContacts := fun _ => [], googleGetContact := fun _ _ => .error "n/a",
        googleUpdateContact := fun _ _ _ => .error "n/a" }
      () ⟨0, 0, 0, []⟩ [] "page-3" manualPageProps rfl⟩

/-- C8: in both phases, a failing record is contained: the step function is
total, the failure produces exactly one appended error string that carries the
record's display name (shown by the explicit decomposition around
`first_name ++ " " ++ last_name`), counters and world are untouched, and the
fold structure continues with the remaining records unchanged. -/
theorem sync_phases_isolate_record_errors {σ : Type} (C : Clients σ)
    (today : Date) (s : σ) (st : SyncState) (stats : SyncStats)
    (ops : List WriteOp) (contact : Contact) (e : String)
    (page : String × NotionProps) :
    (processGoogleContact C today s st contact = .error e →
      syncFromGoogleStep C today (s, st, stats, ops) contact =
        (s, st, { stats with errors := stats.errors ++
            ["Failed to sync '" ++ (contact.first_name ++ " " ++ contact.last_name)
              ++ "': " ++ e] }, ops)) ∧
    ((fromNotionProps page.2).google_id ≠ "" →
      processNotionContact C s (fromNotionProps page.2) = .error e →
      syncToGoogleStep C (s, stats, ops) page =
        (s, { stats with errors := stats.errors ++
            ["Failed to sync '"
              ++ ((fromNotionProps page.2).first_name ++ " "
                  ++ (fromNotionProps page.2).last_name)
              ++ "' to Google: " ++ e] }, ops)) ∧
    (∀ (init : σ × SyncState × SyncStats × List WriteOp) (pre post : List Contact),
      (pre ++ contact :: post).foldl (syncFromGoogleStep C today) init =
        post.foldl (syncFromGoogleStep C today)
          (syncFromGoogleStep C today (pre.foldl (syncFromGoogleStep C today) init)
            contact)) := by
  refine ⟨?_, ?_, ?_⟩
  · intro h
    simp [syncFromGoogleStep, h, String.append_assoc]
  · intro hid h
    simp [syncToGoogleStep, hid, h, String.append_assoc]
  · intro init pre post
    rw [List.foldl_append, List.foldl_cons]

/-- A collaborator instance whose fetch calls raise, to exercise the error
paths (σ is the trivial world). -/
def failingClients : Clients Unit :=
  { notionQueryAll := fun _ => []
    notionGetPage := fun _ _ => .error "boom"
    notionUpdatePage := fun _ _ _ => .error "boom"
    notionCreatePage := fun _ _ => .error "boom"
    googleGetContacts := fun _ => []
    googleGetContact := fun _ _ => .error "boom"
    googleUpdateContact := fun _ _ _ => .error "boom" }

/-- An index state that already maps identity key "g1" to "page-0". -/
def c8State : SyncState := ⟨[("g1", "page-0")], [], [], []⟩

/-- An incoming Google contact whose Notion page fetch will fail. -/
def c8Contact : Contact := { google_id := "g1", first_name := "Ann" }

/-- A database page whose remote fetch will fail. -/
def c8Props : NotionProps :=
  { emptyProps with googleID := ⟨["g1"]⟩, firstName := ⟨["Ann"]⟩ }

theorem sync_phases_isolate_record_errors_witness :
    (syncFromGoogleStep failingClients ⟨2024, 1, 3⟩ ((), c8State, ⟨0, 0, 0, []⟩, [])
        c8Contact =
      ((), c8State, { (⟨0, 0, 0, []⟩ : SyncStats) with errors := [] ++
          ["Failed to sync '" ++ (c8Contact.first_name ++ " " ++ c8Contact.last_name)
            ++ "': " ++ "boom"] }, [])) ∧
    (syncToGoogleStep failingClients ((), ⟨0, 0, 0, []⟩, []) ("p", c8Props) =
      ((), { (⟨0, 0, 0, []⟩ : SyncStats) with errors := [] ++
          ["Failed to sync '"
            ++ ((fromNotionProps c8Props).first_name ++ " "
                ++ (fromNotionProps c8Props).last_name)
            ++ "' to Google: " ++ "boom"] }, [])) ∧
    (([c8Contact] ++ c8Contact :: []).foldl
        (syncFromGoogleStep failingClients ⟨2024, 1, 3⟩) ((), c8State, ⟨0, 0, 0, []⟩, []) =
      [].foldl (syncFromGoogleStep failingClients ⟨2024, 1, 3⟩)
        (syncFromGoogleStep failingClients ⟨2024, 1, 3⟩
          ([c8Contact].foldl (syncFromGoogleStep failingClients ⟨2024, 1, 3⟩)
            ((), c8State, ⟨0, 0, 0, []⟩, [])) c8Contact)) :=
  ⟨(sync_phases_isolate_record_errors failingClients ⟨2024, 1, 3⟩ () c8State
      ⟨0, 0, 0, []⟩ [] c8Contact "boom" ("p", c8Props)).1 rfl,
   (sync_phases_isolate_record_errors failingClients ⟨2024, 1, 3⟩ () c8State
      ⟨0, 0, 0, []⟩ [] c8Contact "boom" ("p", c8Props)).2.1 (by decide) rfl,
   (sync_phases_isolate_record_errors failingClients ⟨2024, 1, 3⟩ () c8State
      ⟨0, 0, 0, []⟩ [] c8Contact "boom" ("p", c8Props)).2.2
     ((), c8State, ⟨0, 0, 0, []⟩, []) [c8Contact] []⟩

/-! ## A concrete world for end-to-end runs -/

/-- An in-memory instantiation of both services: the remote dataset, the
database pages, and a counter for fresh page ids. -/
structure World where
  google : List GApiPerson
  notion : List (String × NotionProps)
  nextId : Nat
deriving DecidableEq, Repr

/-- Modelled from the spec: the remote service applies the masked update that
`GoogleContactsClient.update_contact` issues — each of the seven field groups
is named in the update mask exactly when present in the serialized person, so
present groups replace the stored ones and absent groups stay unchanged. -/
def applyGoogleUpdate (old : GApiPerson) (contact : Contact) : GApiPerson :=
  let person := toGooglePerson contact
  { old with
    names := (match person.names with
      | some ns => ns.map (fun n =>
          { givenName := some n.givenName, familyName := some n.familyName })
      | none => old.names)
    emailAddresses := (match person.emailAddresses with
      | some es => es.map (fun e => { value := some e.value })
      | none => old.emailAddresses)
    phoneNumbers := (match person.phoneNumbers with
      | some ps => ps.map (fun p => { value := some p.value })
      | none => old.phoneNumbers)
    birthdays := (match person.birthdays with
      | some bs => bs.map (fun b =>
          { date := some ⟨some b.date.year, some b.date.month, some b.date.day⟩ })
      | none => old.birthdays)
    organizations := (match person.organizations with
      | some os => os.map (fun o =>
          { name := some o.name, title := some o.title, department := some o.department })
      | none => old.organizations)
    addresses := (match person.addresses with
      | some al => al.map (fun a => { formattedValue := some a.formattedValue })
      | none => old.addresses)
    urls := (match person.urls with
      | some us => us.map (fun u => { value := some u.value })
      | none => old.urls) }

/-- Modelled from the spec: the in-memory collaborator instance over `World`.
Reads return stored data; a full property bag replaces the page's properties
on update (the serializer always emits every property); creation appends a
page under a fresh id; unknown handles fail as the real clients would. -/
def storeClients : Clients World where
  notionQueryAll s := s.notion
  notionGetPage s page_id :=
    match lookupAssoc s.notion page_id with
    | some props => .ok props
    | none => .error "page not found"
  notionUpdatePage s page_id properties :=
    if (lookupAssoc s.notion page_id).isSome then
      .ok { s with notion := insertAssoc page_id properties s.notion }
    else .error "page not found"
  notionCreatePage s properties :=
    let new_id := "page-" ++ toString s.nextId
    let s2 : World :=
      { s with notion := s.notion ++ [(new_id, properties)], nextId := s.nextId + 1 }
    .ok (s2, new_id)
  googleGetContacts s := s.google.map fromGoogleApi
  googleGetContact s resource_name :=
    match s.google.find? (fun p => p.resourceName == some resource_name) with
    | some p => .ok p
    | none => .error "contact not found"
  googleUpdateContact s resource_name contact :=
    if (s.google.find? (fun p => p.resourceName == some resource_name)).isSome then
      .ok { s with google := s.google.map (fun p =>
          if p.resourceName == some resource_name then applyGoogleUpdate p contact
          else p) }
    else .error "contact not found"

/-- The remote dataset of the two-pass scenario: one ordinary contact. -/
def annPerson : GApiPerson :=
  { resourceName := some "people/c1"
    names := [{ givenName := some "Ann" }]
    emailAddresses := [{ value := some "ann@x.com" }] }

/-- The initial world of the two-pass scenario: one remote contact, an empty
database. -/
def c4World0 : World := { google := [annPerson], notion := [], nextId := 0 }

/-- The second full pass, run on the world left by a first full pass, with the
external datasets untouched in between; `t1`, `t2` are the processing dates of
the two passes. -/
def c4SecondPass (t1 t2 : Date) : World × SyncStats × SyncStats × List WriteOp :=
  fullSync storeClients t2 (fullSync storeClients t1 c4World0).1

/-- C4 counterexample: on the concrete scenario the second pass's write log is
not empty — the remote→database phase updates the matched page again. -/
theorem second_pass_issues_a_write :
    (c4SecondPass ⟨2024, 1, 1⟩ ⟨2024, 1, 2⟩).2.2.2 ≠ [] := by decide

/-- C4 amended: with data unchanged between passes, the second pass issues no
creates on either side and no remote-side updates (the database→remote no-op
short-circuit holds), but the remote→database phase writes unconditionally,
so the second pass performs exactly one database-side update per matched
remote contact — here the single write `notionUpdate "page-0"` — whatever the
two processing dates are. -/
theorem second_pass_updates_notion_only (t1 t2 : Date) :
    (c4SecondPass t1 t2).2.2.2 = [WriteOp.notionUpdate "page-0"] ∧
    (c4SecondPass t1 t2).2.1 = { created := 0, updated := 1, skipped := 0, errors := [] } ∧
    (c4SecondPass t1 t2).2.2.1 = { created := 0, updated := 0, skipped := 0, errors := [] } :=
  ⟨rfl, rfl, rfl⟩

end C2N
